import Mathlib

/-!
Verification development for the NAVIGATOR v1.0 scoring engine
(`src/NAV_v1.py`).  The scoring core is a set of pure functions on real
numbers; we embed them shallowly over `ℚ` (exact arithmetic), keeping the
source's structure: `clamp01`, the three domain scorers, the aggregator
`navigator_index`, `bucket`, `primary_limiting_domain`, and the decision
tree `suggest_path`.
-/

namespace NAV

/-- Executable minimum on `ℚ` (agrees with `min`, see `rmin_eq`). -/
def rmin (a b : ℚ) : ℚ := if a ≤ b then a else b

/-- Executable maximum on `ℚ` (agrees with `max`, see `rmax_eq`). -/
def rmax (a b : ℚ) : ℚ := if a ≤ b then b else a

lemma rmin_eq (a b : ℚ) : rmin a b = min a b := (min_def a b).symm

lemma rmax_eq (a b : ℚ) : rmax a b = max a b := (max_def a b).symm

/-- Mirrors `clamp01` in `src/NAV_v1.py`: `float(np.clip(x, 0.0, 1.0))`,
i.e. `x` restricted to the closed interval `[0, 1]`. -/
def clamp01 (x : ℚ) : ℚ := rmax 0 (rmin 1 x)

/-- Mirrors `np.clip(s, 0, 100)`, the defensive clamp applied by every
scorer and by the aggregator in `src/NAV_v1.py`. -/
def clip0100 (x : ℚ) : ℚ := rmax 0 (rmin 100 x)

/-- Mirrors `score_systemic` in `src/NAV_v1.py`: Systemic Biology
Score (SBS), 0 (best) to 100 (worst), from age and BMI. -/
def score_systemic (age bmi : ℚ) : ℚ :=
  let age_r := clamp01 ((age - 30) / 15)
  let bmi_r := clamp01 ((bmi - 22) / 18)
  let sbs := 100 * (0.55 * age_r + 0.45 * bmi_r)
  clip0100 sbs

/-- Mirrors `score_endometrial` in `src/NAV_v1.py`: Endometrial Phenotype
Score (EPS), from endometrial thickness and progesterone. -/
def score_endometrial (emt_mm prog_ng_ml : ℚ) : ℚ :=
  let emt_r := clamp01 ((7 - emt_mm) / 3)
  let prog_r := clamp01 ((9.5 - prog_ng_ml) / 6)
  let eps := 100 * (0.60 * emt_r + 0.40 * prog_r)
  clip0100 eps

/-- Mirrors `score_embryo` in `src/NAV_v1.py`: Embryo Genetics/Competence
Score (EGS) from the two booleans. -/
def score_embryo (euploid good_grade : Bool) : ℚ :=
  let competence : ℚ :=
    0.70 * (if euploid then 1 else 0) + 0.30 * (if good_grade then 1 else 0)
  let emb_r := 1 - clamp01 competence
  let egs := 100 * emb_r
  clip0100 egs

/-- Mirrors `navigator_index` in `src/NAV_v1.py`: the three domain scores
and the clamped Global NAVIGATOR Index, returned as `(sbs, eps, egs, gni)`. -/
def navigator_index (age bmi emt_mm prog_ng_ml : ℚ) (euploid good_grade : Bool) :
    ℚ × ℚ × ℚ × ℚ :=
  let sbs := score_systemic age bmi
  let eps := score_endometrial emt_mm prog_ng_ml
  let egs := score_embryo euploid good_grade
  let gni := 0.45 * egs + 0.35 * eps + 0.20 * sbs
  (sbs, eps, egs, clip0100 gni)

/-- Mirrors `bucket` in `src/NAV_v1.py`. -/
def bucket (score : ℚ) : String :=
  if score < 30 then "Low"
  else if score < 60 then "Moderate"
  else "High"

/-- Mirrors `primary_limiting_domain` in `src/NAV_v1.py`.  Python's
`max(d, key=d.get)` over the dict `{"Embryo": egs, "Endometrium": eps,
"Systemic": sbs}` scans the entries in insertion order (Embryo,
Endometrium, Systemic) and replaces the current best only on a strictly
greater score, so the first maximum wins. -/
def primary_limiting_domain (sbs eps egs : ℚ) : String :=
  let best1 : String × ℚ := ("Embryo", egs)
  let best2 : String × ℚ := if eps > best1.2 then ("Endometrium", eps) else best1
  let best3 : String × ℚ := if sbs > best2.2 then ("Systemic", sbs) else best2
  best3.1

/-- Rounds to the nearest integer with halves to even, the rule Python's
`round` and fixed-point float formatting apply (here applied to the exact
rational value). -/
def roundHalfEven (q : ℚ) : ℤ :=
  let f := ⌊q⌋
  let r := q - f
  if r < 1/2 then f
  else if 1/2 < r then f + 1
  else if f % 2 = 0 then f else f + 1

/-- Mirrors Python's fixed-point format `f"{q:.precf}"` on the exact
rational value: round-half-even at `prec` decimal places, then print with
exactly `prec` digits after the point. -/
def fmtFixed (prec : Nat) (q : ℚ) : String :=
  let scale : ℚ := ((10 : ℕ) ^ prec : ℕ)
  let n := roundHalfEven (q * scale)
  let sign := if n < 0 then "-" else ""
  let m := n.natAbs
  let ip := m / 10 ^ prec
  let fp := m % 10 ^ prec
  if prec = 0 then sign ++ toString ip
  else
    sign ++ toString ip ++ "." ++
      String.mk (List.replicate (prec - (toString fp).length) '0') ++ toString fp

/-- Mirrors Python's `round(x, 2)` as used by the export record in
`src/NAV_v1.py` (round-half-even at two decimal places, on the exact
rational value). -/
def round2 (q : ℚ) : ℚ := (roundHalfEven (q * 100) : ℚ) / 100

/-- Mirrors `suggest_path` in `src/NAV_v1.py`: the decision-tree guidance,
an ordered list of `(title, bullets)` sections. -/
def suggest_path (age bmi emt_mm prog_ng_ml : ℚ) (euploid good_grade : Bool)
    (sbs eps egs gni : ℚ) : List (String × List String) :=
  let first :=
    if !euploid then
      ("Primary focus: Embryo competence",
        ["If PGT-A is available/appropriate, prioritize transferring a euploid embryo to reduce embryo-related uncertainty.",
         "If no euploid embryos are available, focus on optimizing stimulation strategy and embryo selection (lab + morphology).",
         "Consider deferring endometrial optimization steps until embryo competence is addressed."])
    else
      ("Embryo gate passed (euploid = Yes)",
        ["Proceed to endometrial and systemic optimization checks before transfer."])
  let endo_actions :=
    (if emt_mm < 7 then
      ["Endometrium thickness is low (EMT " ++ fmtFixed 1 emt_mm ++ " mm). Optimize endometrial preparation (standard protocol adjustments) before transfer.",
       "If thin endometrium persists, consider uterine cavity evaluation (e.g., sonohysterography/hysteroscopy) per clinic practice."]
     else []) ++
    (if prog_ng_ml < 9.5 then
      ["Progesterone appears low (P4 " ++ fmtFixed 1 prog_ng_ml ++ " ng/mL). Consider confirming progesterone on the day of transfer (or mid-luteal depending on protocol) and adjusting luteal support per clinic standards."]
     else [])
  let endo_actions :=
    if endo_actions = [] then
      ["Endometrial readiness markers (EMT and progesterone) look acceptable for proceeding within standard workflows."]
    else endo_actions
  let sys_actions :=
    (if bmi ≥ 30 then
      ["BMI is elevated (BMI " ++ fmtFixed 1 bmi ++ "). Consider a pre-transfer optimization window focusing on weight, sleep, and activity—especially if repeated failures."]
     else if bmi ≥ 27 then
      ["BMI is moderately elevated (BMI " ++ fmtFixed 1 bmi ++ "). Lifestyle optimization may improve systemic environment before transfer."]
     else []) ++
    (if age ≥ 38 then
      ["Age is " ++ fmtFixed 0 age ++ ". Consider prioritizing embryo genetics/selection and minimizing delays to transfer once readiness is confirmed."]
     else [])
  let sys_actions :=
    if sys_actions = [] then
      ["Systemic risk signals (age/BMI) are not strongly elevated; proceed with standard preparation."]
    else sys_actions
  let dom := primary_limiting_domain sbs eps egs
  [first,
   ("Endometrial phenotype actions", endo_actions),
   ("Systemic biology actions", sys_actions),
   ("NAVIGATOR summary path",
     ["Global NAVIGATOR Index (0–100): " ++ fmtFixed 1 gni ++ " → " ++ bucket gni ++ " overall risk",
      "Primary limiting domain: " ++ dom,
      "Suggested sequence: Address the primary limiting domain first, then re-check readiness and proceed to transfer."])]

/-- Specification-side selector, written from the spec's words: the first
domain in the fixed scan order Embryo, Endometrium, Systemic whose score
equals the numerical maximum of the three. -/
def spec_primary_domain (sbs eps egs : ℚ) : String :=
  if egs = max egs (max eps sbs) then "Embryo"
  else if eps = max egs (max eps sbs) then "Endometrium"
  else "Systemic"

lemma clip0100_def (x : ℚ) : clip0100 x = max 0 (min 100 x) := by
  unfold clip0100
  rw [rmax_eq, rmin_eq]

lemma clamp01_def (x : ℚ) : clamp01 x = max 0 (min 1 x) := by
  unfold clamp01
  rw [rmax_eq, rmin_eq]

lemma clip0100_nonneg (x : ℚ) : 0 ≤ clip0100 x := by
  rw [clip0100_def]; exact le_max_left 0 _

lemma clip0100_le (x : ℚ) : clip0100 x ≤ 100 := by
  rw [clip0100_def]; exact max_le (by norm_num) (min_le_left _ _)

lemma clip0100_eq_self {x : ℚ} (h0 : 0 ≤ x) (h1 : x ≤ 100) : clip0100 x = x := by
  rw [clip0100_def, min_eq_right h1, max_eq_right h0]

lemma clip0100_mono {x y : ℚ} (h : x ≤ y) : clip0100 x ≤ clip0100 y := by
  rw [clip0100_def, clip0100_def]
  exact max_le_max le_rfl (min_le_min le_rfl h)

lemma clamp01_mono {x y : ℚ} (h : x ≤ y) : clamp01 x ≤ clamp01 y := by
  rw [clamp01_def, clamp01_def]
  exact max_le_max le_rfl (min_le_min le_rfl h)

lemma clamp01_nonneg (x : ℚ) : 0 ≤ clamp01 x := by
  rw [clamp01_def]; exact le_max_left 0 _

lemma clamp01_le_one (x : ℚ) : clamp01 x ≤ 1 := by
  rw [clamp01_def]; exact max_le (by norm_num) (min_le_left _ _)

lemma score_systemic_nonneg (age bmi : ℚ) : 0 ≤ score_systemic age bmi :=
  clip0100_nonneg _

lemma score_systemic_le (age bmi : ℚ) : score_systemic age bmi ≤ 100 :=
  clip0100_le _

lemma score_endometrial_nonneg (emt_mm prog_ng_ml : ℚ) :
    0 ≤ score_endometrial emt_mm prog_ng_ml :=
  clip0100_nonneg _

lemma score_endometrial_le (emt_mm prog_ng_ml : ℚ) :
    score_endometrial emt_mm prog_ng_ml ≤ 100 :=
  clip0100_le _

lemma score_embryo_nonneg (euploid good_grade : Bool) :
    0 ≤ score_embryo euploid good_grade :=
  clip0100_nonneg _

lemma score_embryo_le (euploid good_grade : Bool) :
    score_embryo euploid good_grade ≤ 100 :=
  clip0100_le _

/-- C1: for every rational age, bmi, emt_mm, prog_ng_ml and every pair of
booleans euploid, good_grade, each of the four values returned by
`navigator_index` (SBS, EPS, EGS, GNI) lies in the closed interval
`[0, 100]`. -/
theorem navigator_index_range (age bmi emt_mm prog_ng_ml : ℚ)
    (euploid good_grade : Bool) :
    (0 ≤ (navigator_index age bmi emt_mm prog_ng_ml euploid good_grade).1 ∧
      (navigator_index age bmi emt_mm prog_ng_ml euploid good_grade).1 ≤ 100) ∧
    (0 ≤ (navigator_index age bmi emt_mm prog_ng_ml euploid good_grade).2.1 ∧
      (navigator_index age bmi emt_mm prog_ng_ml euploid good_grade).2.1 ≤ 100) ∧
    (0 ≤ (navigator_index age bmi emt_mm prog_ng_ml euploid good_grade).2.2.1 ∧
      (navigator_index age bmi emt_mm prog_ng_ml euploid good_grade).2.2.1 ≤ 100) ∧
    (0 ≤ (navigator_index age bmi emt_mm prog_ng_ml euploid good_grade).2.2.2 ∧
      (navigator_index age bmi emt_mm prog_ng_ml euploid good_grade).2.2.2 ≤ 100) :=
  ⟨⟨score_systemic_nonneg age bmi, score_systemic_le age bmi⟩,
   ⟨score_endometrial_nonneg emt_mm prog_ng_ml,
    score_endometrial_le emt_mm prog_ng_ml⟩,
   ⟨score_embryo_nonneg euploid good_grade, score_embryo_le euploid good_grade⟩,
   ⟨clip0100_nonneg _, clip0100_le _⟩⟩

/-- C3: bucket classifies every score: Low exactly below 30, Moderate
exactly on `[30, 60)`, High exactly from 60 on; in particular
bucket 29.999 = Low, bucket 30 = Moderate, bucket 59.999 = Moderate and
bucket 60 = High, and bucket is a total function. -/
theorem bucket_correct :
    (∀ s : ℚ,
      (bucket s = "Low" ↔ s < 30) ∧
      (bucket s = "Moderate" ↔ 30 ≤ s ∧ s < 60) ∧
      (bucket s = "High" ↔ 60 ≤ s)) ∧
    bucket (29999/1000) = "Low" ∧ bucket 30 = "Moderate" ∧
    bucket (59999/1000) = "Moderate" ∧ bucket 60 = "High" := by
  refine ⟨fun s => ?_, ?_, ?_, ?_, ?_⟩
  · unfold bucket
    split_ifs with h1 h2 <;>
      refine ⟨?_, ?_, ?_⟩ <;> simp_all <;> linarith
  all_goals norm_num [bucket]

/-- C4: the GNI returned by `navigator_index` is exactly
`clip0100 (0.45 * EGS + 0.35 * EPS + 0.20 * SBS)` where SBS, EPS, EGS are
the domain scores returned for the same inputs; with domain scores
`(0, 0, 100)` the GNI is exactly 45, and with `(100, 100, 100)` it is
exactly 100. -/
theorem gni_weighted_aggregation :
    (∀ (age bmi emt_mm prog_ng_ml : ℚ) (euploid good_grade : Bool),
      (navigator_index age bmi emt_mm prog_ng_ml euploid good_grade).1 =
          score_systemic age bmi ∧
      (navigator_index age bmi emt_mm prog_ng_ml euploid good_grade).2.1 =
          score_endometrial emt_mm prog_ng_ml ∧
      (navigator_index age bmi emt_mm prog_ng_ml euploid good_grade).2.2.1 =
          score_embryo euploid good_grade ∧
      (navigator_index age bmi emt_mm prog_ng_ml euploid good_grade).2.2.2 =
        clip0100
          (0.45 * (navigator_index age bmi emt_mm prog_ng_ml euploid good_grade).2.2.1 +
           0.35 * (navigator_index age bmi emt_mm prog_ng_ml euploid good_grade).2.1 +
           0.20 * (navigator_index age bmi emt_mm prog_ng_ml euploid good_grade).1)) ∧
    navigator_index 30 22 7 9.5 false false = (0, 0, 100, 45) ∧
    navigator_index 45 40 4 3.5 false false = (100, 100, 100, 100) := by
  refine ⟨fun age bmi emt_mm prog_ng_ml euploid good_grade =>
    ⟨rfl, rfl, rfl, rfl⟩, ?_, ?_⟩ <;>
    norm_num [navigator_index, score_systemic, score_endometrial, score_embryo,
      clamp01, clip0100, rmin, rmax, Prod.ext_iff]

/-- C2: primary_limiting_domain returns the name of a domain whose score is
the numerical maximum of the three, ties resolved to Embryo first, then
Endometrium, then Systemic (the first maximum in the scan order Embryo,
Endometrium, Systemic), i.e. it agrees with the spec-side selector
`spec_primary_domain`. -/
theorem primary_limiting_domain_correct (sbs eps egs : ℚ) :
    primary_limiting_domain sbs eps egs = spec_primary_domain sbs eps egs := by
  unfold primary_limiting_domain spec_primary_domain
  dsimp only
  by_cases h1 : egs < eps
  · rw [if_pos h1]
    dsimp only
    by_cases h2 : eps < sbs
    · rw [if_pos h2]
      have hgs : egs < sbs := lt_trans h1 h2
      rw [max_eq_right (le_of_lt h2), max_eq_right (le_of_lt hgs),
        if_neg (ne_of_lt hgs), if_neg (ne_of_lt h2)]
    · rw [if_neg h2]
      have h2' : sbs ≤ eps := not_lt.1 h2
      rw [max_eq_left h2', max_eq_right (le_of_lt h1), if_neg (ne_of_lt h1),
        if_pos rfl]
  · rw [if_neg h1]
    dsimp only
    have h1' : eps ≤ egs := not_lt.1 h1
    by_cases h2 : egs < sbs
    · rw [if_pos h2]
      have hes : eps < sbs := lt_of_le_of_lt h1' h2
      rw [max_eq_right (le_of_lt hes), max_eq_right (le_of_lt h2),
        if_neg (ne_of_lt h2), if_neg (ne_of_lt hes)]
    · rw [if_neg h2]
      have h2' : sbs ≤ egs := not_lt.1 h2
      rw [max_eq_left (max_le h1' h2'), if_pos rfl]

/-- C6: score_systemic is non-decreasing in age for fixed bmi and
non-decreasing in bmi for fixed age; score_endometrial is non-increasing in
emt_mm for fixed prog_ng_ml and non-increasing in prog_ng_ml for fixed
emt_mm. -/
theorem scores_monotone :
    (∀ age age' bmi : ℚ, age ≤ age' →
      score_systemic age bmi ≤ score_systemic age' bmi) ∧
    (∀ age bmi bmi' : ℚ, bmi ≤ bmi' →
      score_systemic age bmi ≤ score_systemic age bmi') ∧
    (∀ emt emt' prog : ℚ, emt ≤ emt' →
      score_endometrial emt' prog ≤ score_endometrial emt prog) ∧
    (∀ emt prog prog' : ℚ, prog ≤ prog' →
      score_endometrial emt prog' ≤ score_endometrial emt prog) := by
  refine ⟨?_, ?_, ?_, ?_⟩
  · intro age age' bmi h
    unfold score_systemic
    apply clip0100_mono
    have hc := clamp01_mono (show (age - 30) / 15 ≤ (age' - 30) / 15 by linarith)
    linarith
  · intro age bmi bmi' h
    unfold score_systemic
    apply clip0100_mono
    have hc := clamp01_mono (show (bmi - 22) / 18 ≤ (bmi' - 22) / 18 by linarith)
    linarith
  · intro emt emt' prog h
    unfold score_endometrial
    apply clip0100_mono
    have hc := clamp01_mono (show (7 - emt') / 3 ≤ (7 - emt) / 3 by linarith)
    linarith
  · intro emt prog prog' h
    unfold score_endometrial
    apply clip0100_mono
    have hc := clamp01_mono (show (9.5 - prog') / 6 ≤ (9.5 - prog) / 6 by linarith)
    linarith

/-- Witness for C6: the four monotonicity statements applied at concrete
inputs. -/
theorem scores_monotone_witness :
    score_systemic 30 25 ≤ score_systemic 40 25 ∧
    score_systemic 34 22 ≤ score_systemic 34 30 ∧
    score_endometrial 8 10 ≤ score_endometrial 6 10 ∧
    score_endometrial 9 8 ≤ score_endometrial 9 5 :=
  ⟨scores_monotone.1 30 40 25 (by decide),
   scores_monotone.2.1 34 22 30 (by decide),
   scores_monotone.2.2.1 6 8 10 (by decide),
   scores_monotone.2.2.2 9 5 8 (by decide)⟩

lemma weighted_between {sbs eps egs : ℚ}
    (hs0 : 0 ≤ sbs) (hs1 : sbs ≤ 100) (he0 : 0 ≤ eps) (he1 : eps ≤ 100)
    (hg0 : 0 ≤ egs) (hg1 : egs ≤ 100) :
    min sbs (min eps egs) ≤ clip0100 (0.45 * egs + 0.35 * eps + 0.20 * sbs) ∧
    clip0100 (0.45 * egs + 0.35 * eps + 0.20 * sbs) ≤ max sbs (max eps egs) := by
  have hv0 : (0:ℚ) ≤ 0.45 * egs + 0.35 * eps + 0.20 * sbs := by nlinarith
  have hv1 : 0.45 * egs + 0.35 * eps + 0.20 * sbs ≤ (100:ℚ) := by nlinarith
  rw [clip0100_eq_self hv0 hv1]
  constructor
  · have h1 : min sbs (min eps egs) ≤ sbs := min_le_left _ _
    have h2 : min sbs (min eps egs) ≤ eps :=
      le_trans (min_le_right _ _) (min_le_left _ _)
    have h3 : min sbs (min eps egs) ≤ egs :=
      le_trans (min_le_right _ _) (min_le_right _ _)
    linarith
  · have h1 : sbs ≤ max sbs (max eps egs) := le_max_left _ _
    have h2 : eps ≤ max sbs (max eps egs) :=
      le_trans (le_max_left _ _) (le_max_right _ _)
    have h3 : egs ≤ max sbs (max eps egs) :=
      le_trans (le_max_right _ _) (le_max_right _ _)
    linarith

/-- C10: the GNI returned by navigator_index lies between the minimum and
the maximum of the three domain scores of the same inputs. -/
theorem gni_between_min_max (age bmi emt_mm prog_ng_ml : ℚ)
    (euploid good_grade : Bool) :
    min (navigator_index age bmi emt_mm prog_ng_ml euploid good_grade).1
        (min (navigator_index age bmi emt_mm prog_ng_ml euploid good_grade).2.1
          (navigator_index age bmi emt_mm prog_ng_ml euploid good_grade).2.2.1) ≤
      (navigator_index age bmi emt_mm prog_ng_ml euploid good_grade).2.2.2 ∧
    (navigator_index age bmi emt_mm prog_ng_ml euploid good_grade).2.2.2 ≤
      max (navigator_index age bmi emt_mm prog_ng_ml euploid good_grade).1
        (max (navigator_index age bmi emt_mm prog_ng_ml euploid good_grade).2.1
          (navigator_index age bmi emt_mm prog_ng_ml euploid good_grade).2.2.1) :=
  weighted_between (score_systemic_nonneg age bmi) (score_systemic_le age bmi)
    (score_endometrial_nonneg emt_mm prog_ng_ml)
    (score_endometrial_le emt_mm prog_ng_ml)
    (score_embryo_nonneg euploid good_grade) (score_embryo_le euploid good_grade)

/-- C5: score_embryo takes exactly the four values 0, 30, 70, 100 on the
four boolean combinations. -/
theorem score_embryo_values :
    score_embryo true true = 0 ∧ score_embryo true false = 30 ∧
    score_embryo false true = 70 ∧ score_embryo false false = 100 := by
  norm_num [score_embryo, clamp01, clip0100, rmin, rmax]

/-- C7: the first section returned by suggest_path is the embryo gate: with
euploid false its title is "Primary focus: Embryo competence" and it has
exactly 3 bullets; with euploid true its title is
"Embryo gate passed (euploid = Yes)" and it has exactly 1 bullet. -/
theorem suggest_path_embryo_gate (age bmi emt_mm prog_ng_ml : ℚ)
    (good_grade : Bool) (sbs eps egs gni : ℚ) :
    (((suggest_path age bmi emt_mm prog_ng_ml false good_grade
          sbs eps egs gni).headD ("", [])).1 =
        "Primary focus: Embryo competence" ∧
      ((suggest_path age bmi emt_mm prog_ng_ml false good_grade
          sbs eps egs gni).headD ("", [])).2.length = 3) ∧
    (((suggest_path age bmi emt_mm prog_ng_ml true good_grade
          sbs eps egs gni).headD ("", [])).1 =
        "Embryo gate passed (euploid = Yes)" ∧
      ((suggest_path age bmi emt_mm prog_ng_ml true good_grade
          sbs eps egs gni).headD ("", [])).2.length = 1) :=
  ⟨⟨rfl, rfl⟩, ⟨rfl, rfl⟩⟩

/-- C9: suggest_path always returns exactly 4 sections, in the fixed order
embryo gate, "Endometrial phenotype actions", "Systemic biology actions",
"NAVIGATOR summary path"; every bullet list is non-empty with at most 3
bullets, the endometrial section has 3 bullets exactly when emt_mm < 7 and
prog_ng_ml < 9.5, the systemic section has at most 2 bullets, and the
summary section always has exactly 3. -/
theorem suggest_path_shape (age bmi emt_mm prog_ng_ml : ℚ)
    (euploid good_grade : Bool) (sbs eps egs gni : ℚ) :
    (suggest_path age bmi emt_mm prog_ng_ml euploid good_grade
        sbs eps egs gni).length = 4 ∧
    ((suggest_path age bmi emt_mm prog_ng_ml euploid good_grade
        sbs eps egs gni).getD 0 ("", [])).1 =
      (if euploid then "Embryo gate passed (euploid = Yes)"
       else "Primary focus: Embryo competence") ∧
    ((suggest_path age bmi emt_mm prog_ng_ml euploid good_grade
        sbs eps egs gni).getD 1 ("", [])).1 = "Endometrial phenotype actions" ∧
    ((suggest_path age bmi emt_mm prog_ng_ml euploid good_grade
        sbs eps egs gni).getD 2 ("", [])).1 = "Systemic biology actions" ∧
    ((suggest_path age bmi emt_mm prog_ng_ml euploid good_grade
        sbs eps egs gni).getD 3 ("", [])).1 = "NAVIGATOR summary path" ∧
    (1 ≤ ((suggest_path age bmi emt_mm prog_ng_ml euploid good_grade
        sbs eps egs gni).getD 0 ("", [])).2.length ∧
      ((suggest_path age bmi emt_mm prog_ng_ml euploid good_grade
        sbs eps egs gni).getD 0 ("", [])).2.length ≤ 3) ∧
    (1 ≤ ((suggest_path age bmi emt_mm prog_ng_ml euploid good_grade
        sbs eps egs gni).getD 1 ("", [])).2.length ∧
      ((suggest_path age bmi emt_mm prog_ng_ml euploid good_grade
        sbs eps egs gni).getD 1 ("", [])).2.length ≤ 3) ∧
    (((suggest_path age bmi emt_mm prog_ng_ml euploid good_grade
        sbs eps egs gni).getD 1 ("", [])).2.length = 3 ↔
      emt_mm < 7 ∧ prog_ng_ml < 9.5) ∧
    (1 ≤ ((suggest_path age bmi emt_mm prog_ng_ml euploid good_grade
        sbs eps egs gni).getD 2 ("", [])).2.length ∧
      ((suggest_path age bmi emt_mm prog_ng_ml euploid good_grade
        sbs eps egs gni).getD 2 ("", [])).2.length ≤ 2) ∧
    ((suggest_path age bmi emt_mm prog_ng_ml euploid good_grade
        sbs eps egs gni).getD 3 ("", [])).2.length = 3 := by
  by_cases he : emt_mm < 7 <;> by_cases hp : prog_ng_ml < 9.5 <;>
    by_cases h30 : (30:ℚ) ≤ bmi <;> by_cases h27 : (27:ℚ) ≤ bmi <;>
    by_cases ha : (38:ℚ) ≤ age <;> cases euploid <;>
    simp [suggest_path, he, hp, h30, h27, ha]

/-- C8 as literally stated is false: on the inputs age=34, bmi=25,
emt_mm=9, prog_ng_ml=10.5, euploid=true, good_grade=true, the SBS returned
by navigator_index is 133/6 = 22.1666..., not 22.17, and the GNI is
133/30 = 4.4333..., not 4.43. -/
theorem end_to_end_literal_false :
    (navigator_index 34 25 9 10.5 true true).1 ≠ 22.17 ∧
    (navigator_index 34 25 9 10.5 true true).2.2.2 ≠ 4.43 := by
  norm_num [navigator_index, score_systemic, score_endometrial, score_embryo,
    clamp01, clip0100, rmin, rmax]

/-- C8 (amended): on inputs age=34, bmi=25, emt_mm=9, prog_ng_ml=10.5,
euploid=true, good_grade=true, navigator_index yields exactly
SBS = 133/6 (which rounds to 22.17 at two decimals, as in the export
record), EPS = 0, EGS = 0 and GNI = 133/30 (which rounds to 4.43); the
GNI bucket is Low and the primary limiting domain is Systemic. -/
theorem end_to_end_example :
    navigator_index 34 25 9 10.5 true true = (133/6, 0, 0, 133/30) ∧
    round2 (navigator_index 34 25 9 10.5 true true).1 = 22.17 ∧
    round2 (navigator_index 34 25 9 10.5 true true).2.2.2 = 4.43 ∧
    bucket (navigator_index 34 25 9 10.5 true true).2.2.2 = "Low" ∧
    primary_limiting_domain (navigator_index 34 25 9 10.5 true true).1
      (navigator_index 34 25 9 10.5 true true).2.1
      (navigator_index 34 25 9 10.5 true true).2.2.1 = "Systemic" := by
  have h : navigator_index 34 25 9 10.5 true true = (133/6, 0, 0, 133/30) := by
    norm_num [navigator_index, score_systemic, score_endometrial, score_embryo,
      clamp01, clip0100, rmin, rmax, Prod.ext_iff]
  have hf1 : ⌊(133/6 * 100 : ℚ)⌋ = 2216 := by
    rw [Int.floor_eq_iff]
    norm_num
  have hf2 : ⌊(133/30 * 100 : ℚ)⌋ = 443 := by
    rw [Int.floor_eq_iff]
    norm_num
  refine ⟨h, ?_, ?_, ?_, ?_⟩ <;> rw [h]
  · show round2 (133/6) = 22.17
    rw [round2, roundHalfEven]
    rw [hf1]
    norm_num
  · show round2 (133/30) = 4.43
    rw [round2, roundHalfEven]
    rw [hf2]
    norm_num
  · show bucket (133/30) = "Low"
    norm_num [bucket]
  · show primary_limiting_domain (133/6) 0 0 = "Systemic"
    norm_num [primary_limiting_domain]

end NAV
